import Mathlib

/-!
Verification development for the SMART-Oil-Field real-time telemetry pipeline.

The definitions below are a shallow embedding of
`src/data_science/pipelines/stream_processing.py` (TelemetryEvent,
StreamBuffer, StreamProcessor and its predefined processors) and of the
alerting / rule-based anomaly-detection code of
`src/python_api/app/main.py` (TelemetryIn validation,
detect_anomaly_rule_based, the health scoring helpers).

Modelling conventions:
- Python floats are modelled as exact rationals (`ℚ`).  All comparisons the
  embedded theorems depend on are far from any rounding boundary, except the
  rule-score case 0.2 + 0.3, where IEEE doubles also give exactly 0.5.
- `numpy.std` computes the square root of the population variance; since a
  square root is irrational in general, the z-score comparison
  `|v − m| / (std + eps) > t` is embedded in the equivalent square-free form
  `t·eps < |v − m| ∧ t²·var < (|v − m| − t·eps)²` (justified over `ℝ` by the
  lemma `zExceeds_iff_real` below).
- A Python dict returned by a processor is modelled by the fields the
  orchestrator inspects (`alert`, `severity`); auxiliary payload fields
  (`value`, `threshold`, raw z-scores, human-readable reason strings) are
  not modelled.
- A Python exception raised by a processor is modelled by `Except.error`;
  wall-clock values (`datetime.now()`) are not modelled because no theorem
  below depends on them.
-/

/-- The `TelemetryEvent` dataclass of `stream_processing.py` (the unused
optional `metadata` mapping is not modelled). -/
structure TelemetryEvent where
  device_id : String
  timestamp : ℚ
  temperature : ℚ
  pressure : ℚ
  status : String := "OK"
deriving Repr, DecidableEq

/-- The `StreamBuffer` class: a `collections.deque(maxlen := maxsize)`
of telemetry events. -/
structure StreamBuffer where
  buffer : List TelemetryEvent
  maxsize : ℕ
deriving Repr, DecidableEq

/-- `StreamBuffer.add`: `deque.append` on a deque with `maxlen = maxsize`
appends on the right and, when full, silently discards the oldest (leftmost)
entry. -/
def StreamBuffer.add (b : StreamBuffer) (e : TelemetryEvent) : StreamBuffer :=
  let l := b.buffer ++ [e]
  { b with buffer := l.drop (l.length - b.maxsize) }

/-- `StreamBuffer.get_by_device`: the events of one device, then the Python
slice `device_events[-limit:]` (which is the whole list when `limit = 0`). -/
def StreamBuffer.get_by_device (b : StreamBuffer) (d : String) (limit : ℕ) :
    List TelemetryEvent :=
  let evs := b.buffer.filter (fun e => e.device_id == d)
  if limit = 0 then evs else evs.drop (evs.length - limit)

/-- Folding a whole list of events into a buffer with `add`. -/
def StreamBuffer.addAll (b : StreamBuffer) (es : List TelemetryEvent) :
    StreamBuffer :=
  es.foldl StreamBuffer.add b

/-- The part of a processor's returned dict that the orchestrator inspects:
the truthy `'alert'` key (a non-empty alert-type string in every processor of
the module) and the `'severity'` value. -/
structure ProcResult where
  alert : String
  severity : String
deriving Repr, DecidableEq

/-- A processing function of the pipeline
(`StreamProcessor.processors` holds arbitrary callables); `Except.error`
models the callable raising an exception. -/
abbrev Processor := TelemetryEvent → StreamBuffer → Except String (Option ProcResult)

/-- A processor that never raises, such as the three predefined processors
of the module. -/
def pureProc (f : TelemetryEvent → StreamBuffer → Option ProcResult) : Processor :=
  fun e b => Except.ok (f e b)

/-- One entry of `StreamProcessor.alerts` (the Python dict keys
`device_id`, `alert_type`, `details`, `event`; the wall-clock `timestamp`
key is not modelled). -/
structure AlertRecord where
  device_id : String
  alert_type : String
  details : ProcResult
  event : TelemetryEvent
deriving Repr, DecidableEq

/-- The counters of `StreamProcessor.stats` (the wall-clock
`last_processed` entry is not modelled). -/
structure Stats where
  events_processed : ℕ
  alerts_generated : ℕ
  processing_errors : ℕ
deriving Repr, DecidableEq

/-- The `StreamProcessor` state. -/
structure StreamProcessor where
  buffer : StreamBuffer
  processors : List Processor
  alerts : List AlertRecord
  stats : Stats

/-- The processor loop inside `StreamProcessor.process_event`: run the
callables in order against the (already updated) buffer, collecting the
alert records appended for truthy `'alert'` results; stop at the first
exception.  Returns the collected alert records and `true` iff no callable
raised. -/
def runChain (e : TelemetryEvent) (buf : StreamBuffer) :
    List Processor → List AlertRecord × Bool
  | [] => ([], true)
  | p :: ps =>
    match p e buf with
    | Except.error _ => ([], false)
    | Except.ok none => runChain e buf ps
    | Except.ok (some r) =>
      let rest := runChain e buf ps
      (⟨e.device_id, r.alert, r, e⟩ :: rest.1, rest.2)

/-- `StreamProcessor.process_event`: add the event to the buffer, run the
processor chain inside one `try`, appending an alert record (and bumping
`alerts_generated`) for each truthy result; on normal completion bump
`events_processed`, and if any processor raised, the single `except` block
bumps `processing_errors` instead (the buffer insertion and the alerts
appended before the exception are kept). -/
def process_event (s : StreamProcessor) (e : TelemetryEvent) : StreamProcessor :=
  let buf := s.buffer.add e
  let res := runChain e buf s.processors
  if res.2 then
    { s with
      buffer := buf,
      alerts := s.alerts ++ res.1,
      stats := { s.stats with
        events_processed := s.stats.events_processed + 1,
        alerts_generated := s.stats.alerts_generated + res.1.length } }
  else
    { s with
      buffer := buf,
      alerts := s.alerts ++ res.1,
      stats := { s.stats with
        processing_errors := s.stats.processing_errors + 1,
        alerts_generated := s.stats.alerts_generated + res.1.length } }

/-- Helper: the buffer of `addAll` is the tail of the concatenated input kept
by the capacity, provided the buffer starts within capacity. -/
theorem addAll_buffer (es : List TelemetryEvent) (b : StreamBuffer)
    (h : b.buffer.length ≤ b.maxsize) :
    (b.addAll es).buffer =
      (b.buffer ++ es).drop (b.buffer.length + es.length - b.maxsize) := by
  induction es generalizing b with
  | nil =>
    have h0 : b.buffer.length - b.maxsize = 0 := by omega
    simp [StreamBuffer.addAll, h0]
  | cons e es ih =>
    have hadd : (b.add e).buffer =
        (b.buffer ++ [e]).drop (b.buffer.length + 1 - b.maxsize) := by
      simp [StreamBuffer.add]
    have hlen : (b.add e).buffer.length ≤ (b.add e).maxsize := by
      rw [hadd]
      show ((b.buffer ++ [e]).drop (b.buffer.length + 1 - b.maxsize)).length ≤ b.maxsize
      rw [List.length_drop, List.length_append]
      simp only [List.length_cons, List.length_nil]
      omega
    have hmax : (b.add e).maxsize = b.maxsize := rfl
    have hstep : b.addAll (e :: es) = (b.add e).addAll es := rfl
    rw [hstep, ih _ hlen, hadd, hmax]
    have hk : b.buffer.length + 1 - b.maxsize ≤ (b.buffer ++ [e]).length := by
      rw [List.length_append]
      simp only [List.length_cons, List.length_nil]
      omega
    rw [← List.drop_append_of_le_length hk, List.drop_drop]
    have h2 : (b.buffer ++ [e]) ++ es = b.buffer ++ e :: es := by simp
    rw [h2]
    congr 1
    rw [List.length_drop, List.length_append]
    simp only [List.length_cons, List.length_nil]
    omega

/-- Arithmetic mean, `numpy.mean` (windows are nonempty wherever it is
called; on `[]` the `ℚ` convention `0 / 0 = 0` applies). -/
def listMean (l : List ℚ) : ℚ :=
  l.sum / l.length

/-- Population variance: the square of `numpy.std` (which uses `ddof = 0`). -/
def popVar (l : List ℚ) : ℚ :=
  listMean (l.map (fun x => (x - listMean l) ^ 2))

/-- The `1e-8` guard added to the standard deviation in the z-score
denominators of `anomaly_detector_processor`. -/
def eps : ℚ := 1 / 100000000

/-- The z-score comparison `|v − m| / (sqrt var + eps) > t` of
`anomaly_detector_processor`, written in the equivalent square-root-free
form so that it stays inside `ℚ`; `zExceeds_iff_real` below proves the two
forms equivalent over `ℝ`. -/
def zExceeds (v m var t : ℚ) : Bool :=
  decide (t * eps < |v - m| ∧ t ^ 2 * var < (|v - m| - t * eps) ^ 2)

/-- Justification of the square-root-free form used by `zExceeds`: over the
reals, for a nonnegative variance, positive guard and positive threshold,
`t < d / (sqrt var + eps)` holds exactly when
`t·eps < d` and `t²·var < (d − t·eps)²` (for nonnegative `d`). -/
theorem zExceeds_iff_real (d var t e : ℝ) (hv : 0 ≤ var) (he : 0 < e)
    (ht : 0 < t) (hd : 0 ≤ d) :
    t < d / (Real.sqrt var + e) ↔
      (t * e < d ∧ t ^ 2 * var < (d - t * e) ^ 2) := by
  have hs : 0 ≤ Real.sqrt var := Real.sqrt_nonneg var
  have hpos : 0 < Real.sqrt var + e := by linarith
  rw [lt_div_iff hpos]
  constructor
  · intro hlt
    have h1 : t * Real.sqrt var + t * e < d := by ring_nf; ring_nf at hlt; linarith
    have hts : 0 ≤ t * Real.sqrt var := by positivity
    have h2 : t * e < d := by linarith
    refine ⟨h2, ?_⟩
    have h3 : t * Real.sqrt var < d - t * e := by linarith
    have h4 : (t * Real.sqrt var) ^ 2 < (d - t * e) ^ 2 := by
      have := mul_self_lt_mul_self hts h3
      nlinarith [this]
    calc t ^ 2 * var = (t * Real.sqrt var) ^ 2 := by
          rw [mul_pow, Real.sq_sqrt hv]
      _ < (d - t * e) ^ 2 := h4
  · rintro ⟨h2, h3⟩
    have h5 : 0 < d - t * e := by linarith
    have h6 : t * Real.sqrt var < d - t * e := by
      have h7 : (t * Real.sqrt var) ^ 2 = t ^ 2 * var := by
        rw [mul_pow, Real.sq_sqrt hv]
      nlinarith [mul_nonneg ht.le hs]
    have : t * (Real.sqrt var + e) = t * Real.sqrt var + t * e := by ring
    linarith

/-- Cast form: the `ℚ` predicate `zExceeds` decides exactly the real
z-score comparison performed by the Python code. -/
theorem zExceeds_eq_true_iff (v m var t : ℚ) (hv : 0 ≤ var) (ht : 0 < t) :
    zExceeds v m var t = true ↔
      (t : ℝ) < |(v : ℝ) - (m : ℝ)| / (Real.sqrt (var : ℝ) + (eps : ℝ)) := by
  have he : (0 : ℝ) < (eps : ℝ) := by
    rw [eps]
    push_cast
    norm_num
  have hv' : (0 : ℝ) ≤ (var : ℝ) := by exact_mod_cast hv
  have ht' : (0 : ℝ) < (t : ℝ) := by exact_mod_cast ht
  have hd : (0 : ℝ) ≤ |(v : ℝ) - (m : ℝ)| := abs_nonneg _
  rw [zExceeds, decide_eq_true_iff,
    zExceeds_iff_real _ _ _ _ hv' he ht' hd]
  constructor
  · rintro ⟨h1, h2⟩
    constructor
    · push_cast at h1 ⊢
      exact_mod_cast h1
    · push_cast at h2 ⊢
      exact_mod_cast h2
  · rintro ⟨h1, h2⟩
    constructor
    · push_cast at h1 ⊢
      exact_mod_cast h1
    · push_cast at h2 ⊢
      exact_mod_cast h2

/-- The `anomaly_detector_processor` of `stream_processing.py`: with fewer
than 10 events of the device in the window (last 50), return `None`;
otherwise compare the per-metric z-scores against 3, and on a hit return the
`ANOMALY_DETECTED` dict whose severity is `HIGH` when the larger z-score
exceeds 4 (equivalently: when either z-score exceeds 4) and `MEDIUM`
otherwise.  The raw z-score payload entries are not modelled. -/
def anomaly_detector_processor (event : TelemetryEvent) (buffer : StreamBuffer) :
    Option ProcResult :=
  let recent := buffer.get_by_device event.device_id 50
  if recent.length < 10 then none
  else
    let temperatures := recent.map (fun e => e.temperature)
    let pressures := recent.map (fun e => e.pressure)
    let temp_mean := listMean temperatures
    let temp_var := popVar temperatures
    let pressure_mean := listMean pressures
    let pressure_var := popVar pressures
    if zExceeds event.temperature temp_mean temp_var 3
        || zExceeds event.pressure pressure_mean pressure_var 3 then
      some { alert := "ANOMALY_DETECTED",
             severity :=
               if zExceeds event.temperature temp_mean temp_var 4
                   || zExceeds event.pressure pressure_mean pressure_var 4
               then "HIGH" else "MEDIUM" }
    else none

/-- The `threshold_monitor_processor` of `stream_processing.py`: collect
threshold-breach alerts in the fixed order temperature (high `elif` low) then
pressure (high `elif` low), and return `alerts[0]` when the list is nonempty,
`None` otherwise.  The `value`/`threshold` payload entries are not
modelled. -/
def threshold_monitor_processor (event : TelemetryEvent) (_buffer : StreamBuffer) :
    Option ProcResult :=
  let alerts : List ProcResult :=
    (if event.temperature > 120 then [⟨"TEMPERATURE_HIGH", "CRITICAL"⟩]
     else if event.temperature < 40 then [⟨"TEMPERATURE_LOW", "HIGH"⟩]
     else [])
    ++
    (if event.pressure > 300 then [⟨"PRESSURE_HIGH", "CRITICAL"⟩]
     else if event.pressure < 100 then [⟨"PRESSURE_LOW", "HIGH"⟩]
     else [])
  alerts.head?

/-- The pydantic `TelemetryIn` model of `main.py`: `device_id` limited to
1..64 characters, `ts` an integer constrained by `ge = 0`, `status` limited
to 1..32 characters.  The `temperature` and `pressure` fields are plain
`float`s with no constraint (in particular, pydantic places no NaN check on
them), so they do not appear here. -/
def telemetryInValid (device_id : String) (ts : ℤ) (status : String) : Bool :=
  decide (1 ≤ device_id.length ∧ device_id.length ≤ 64 ∧ 0 ≤ ts
    ∧ 1 ≤ status.length ∧ status.length ≤ 32)

/-- The fields of the pydantic `AnomalyConfig` model used by
`detect_anomaly_rule_based`, with the model's declared defaults. -/
structure AnomalyConfig where
  temperature_threshold : ℚ := 95
  pressure_threshold : ℚ := 260
  temperature_range : ℚ × ℚ := (60, 90)
  pressure_range : ℚ × ℚ := (180, 250)
deriving Repr, DecidableEq

/-- `detect_anomaly_rule_based` of `main.py` (the human-readable reason
string is not modelled): accumulate 0.4 for a threshold breach `elif` 0.2
for a normal-range violation, per metric, plus 0.3 for the hard-coded
cross-parameter rule; `is_anomaly` is `score >= 0.5` on the accumulated
score, and the returned score is `min(score, 1.0)`. -/
def detect_anomaly_rule_based (cfg : AnomalyConfig) (temperature pressure : ℚ) :
    Bool × ℚ :=
  let score : ℚ := 0
  let score := if temperature > cfg.temperature_threshold then score + 4/10
    else if temperature < cfg.temperature_range.1
        ∨ temperature > cfg.temperature_range.2 then score + 2/10
    else score
  let score := if pressure > cfg.pressure_threshold then score + 4/10
    else if pressure < cfg.pressure_range.1
        ∨ pressure > cfg.pressure_range.2 then score + 2/10
    else score
  let score := if temperature > 85 ∧ pressure > 220 then score + 3/10 else score
  (decide (score ≥ 5/10), min score 1)

/-- The number of scoring rules of `detect_anomaly_rule_based` that fire on
a given input, respecting the per-metric `elif` structure (a threshold
breach shadows the range rule of the same metric). -/
def ruleCount (cfg : AnomalyConfig) (temperature pressure : ℚ) : ℕ :=
  (if temperature > cfg.temperature_threshold then 1
   else if temperature < cfg.temperature_range.1
       ∨ temperature > cfg.temperature_range.2 then 1
   else 0)
  + (if pressure > cfg.pressure_threshold then 1
     else if pressure < cfg.pressure_range.1
         ∨ pressure > cfg.pressure_range.2 then 1
     else 0)
  + (if temperature > 85 ∧ pressure > 220 then 1 else 0)

/-- `StreamProcessor._calculate_health_score`: per-metric stability scores
`max(0, 1 − std/10)` and `max(0, 1 − std/50)`, an alert penalty
`min(0.5, alert_count · 0.1)`, and the average-minus-penalty clamped to
`[0, 1]`. -/
def calculate_health_score (temp_std pressure_std : ℚ) (alert_count : ℕ) : ℚ :=
  let temp_score := max 0 (1 - temp_std / 10)
  let pressure_score := max 0 (1 - pressure_std / 50)
  let alert_penalty := min (1/2) ((alert_count : ℚ) * (1/10))
  let health_score := (temp_score + pressure_score) / 2 - alert_penalty
  max 0 (min 1 health_score)

/-- The claim's formula for the health score, written from the spec's words:
the average of the per-metric stability scores minus a penalty of
`min(0.5, recent_alert_count × 0.1)`, clamped to `[0, 1]`. -/
def specHealthScore (temp_std pressure_std : ℚ) (alert_count : ℕ) : ℚ :=
  let stability_temperature := max 0 (1 - temp_std / 10)
  let stability_pressure := max 0 (1 - pressure_std / 50)
  let penalty := min (1/2) ((alert_count : ℚ) * (1/10))
  max 0 (min 1 ((stability_temperature + stability_pressure) / 2 - penalty))

/-- The status string chosen by `get_device_health` from the health
score. -/
def healthStatusOf (h : ℚ) : String :=
  if h > 7/10 then "HEALTHY" else if h > 4/10 then "DEGRADED" else "CRITICAL"

/-- The two fields of the `get_device_health` result that the theorems below
speak about (the `NO_DATA` branch of the code carries no score; `0` stands
in for its absent value). -/
structure DeviceHealth where
  status : String
  health_score : ℚ
deriving Repr, DecidableEq

/-- Sample variance, the square of the pandas `Series.std()` (`ddof = 1`)
used by `get_device_health`; the code substitutes `0` when the window has at
most one row, folded in here. -/
def sampleVar (l : List ℚ) : ℚ :=
  if l.length ≤ 1 then 0
  else (l.map (fun x => (x - listMean l) ^ 2)).sum / ((l.length : ℚ) - 1)

/-- `StreamProcessor.get_device_health`: `NO_DATA` when the device window
(last 100 events of the device) is empty, otherwise the status/score pair
derived from `calculate_health_score`.  The standard deviations
`temp_std`/`pressure_std` (pandas `df.std()`, irrational in general) and the
recent-alert count (wall-clock dependent) enter as parameters; the theorems
characterize the standard deviations against `sampleVar` by
`0 ≤ s` and `s ^ 2 = sampleVar values`. -/
def get_device_health (buf : StreamBuffer) (device_id : String)
    (temp_std pressure_std : ℚ) (alert_count : ℕ) : DeviceHealth :=
  let recent := buf.get_by_device device_id 100
  if recent = [] then ⟨"NO_DATA", 0⟩
  else
    let score := calculate_health_score temp_std pressure_std alert_count
    ⟨healthStatusOf score, score⟩

/-! Concrete inputs used by witnesses and counterexamples. -/

/-- An empty processor state with no registered processors. -/
def emptyProcessorState : StreamProcessor :=
  ⟨⟨[], 10000⟩, [], [], ⟨0, 0, 0⟩⟩

/-- An event carrying a negative timestamp. -/
def negTsEvent : TelemetryEvent := ⟨"dev1", -1, 50, 200, "OK"⟩

/-- A processor that raises (models a detector throwing an exception). -/
def failingDetector : Processor := fun _ _ => Except.error "boom"

/-- A processor that always returns a truthy alert result. -/
def constAlertDetector : Processor := fun _ _ =>
  Except.ok (some ⟨"ALWAYS_ALERT", "LOW"⟩)

/-- A processor state whose chain is a raising detector followed by an
always-alerting detector. -/
def c3State : StreamProcessor :=
  ⟨⟨[], 10000⟩, [failingDetector, constAlertDetector], [], ⟨0, 0, 0⟩⟩

/-- An arbitrary in-range event. -/
def c3Event : TelemetryEvent := ⟨"dev1", 0, 50, 200, "OK"⟩

/-- C5: the history buffer never exceeds its capacity after an append; a
sequence of appends into an empty buffer of capacity N keeps exactly the
last N events in arrival order; in particular appending e1..e5 with N = 3
leaves exactly [e3, e4, e5]. -/
theorem claim_C5_buffer_eviction :
    (∀ (b : StreamBuffer) (e : TelemetryEvent),
      (b.add e).buffer.length ≤ b.maxsize)
    ∧ (∀ (N : ℕ) (es : List TelemetryEvent),
        (StreamBuffer.addAll ⟨[], N⟩ es).buffer = es.drop (es.length - N))
    ∧ (StreamBuffer.addAll ⟨[], 3⟩
        [⟨"d", 1, 1, 1, "OK"⟩, ⟨"d", 2, 2, 2, "OK"⟩, ⟨"d", 3, 3, 3, "OK"⟩,
         ⟨"d", 4, 4, 4, "OK"⟩, ⟨"d", 5, 5, 5, "OK"⟩]).buffer
      = [⟨"d", 3, 3, 3, "OK"⟩, ⟨"d", 4, 4, 4, "OK"⟩, ⟨"d", 5, 5, 5, "OK"⟩] := by
  refine ⟨?_, ?_, ?_⟩
  · intro b e
    simp [StreamBuffer.add]
    omega
  · intro N es
    have h := addAll_buffer es ⟨[], N⟩ (by simp)
    simpa using h
  · decide

/-- C8: every call to `process_event` increments exactly one of
`events_processed` (no processor raised) and `processing_errors` (some
processor raised), each by exactly 1, and leaves the other unchanged. -/
theorem claim_C8_stats_exactly_one (s : StreamProcessor) (e : TelemetryEvent) :
    ((process_event s e).stats.events_processed = s.stats.events_processed + 1
      ∧ (process_event s e).stats.processing_errors = s.stats.processing_errors)
    ∨ ((process_event s e).stats.events_processed = s.stats.events_processed
      ∧ (process_event s e).stats.processing_errors
          = s.stats.processing_errors + 1) := by
  by_cases h : (runChain e (s.buffer.add e) s.processors).2 = true
  · left
    simp [process_event, h]
  · right
    simp [process_event, h]

/-- C2 counterexample: an event with a negative timestamp is not rejected by
`process_event`: it is inserted into the history and counted as processed,
with no error reported. -/
theorem claim_C2_counterexample :
    (process_event emptyProcessorState negTsEvent).buffer.buffer = [negTsEvent]
    ∧ (process_event emptyProcessorState negTsEvent).stats.events_processed = 1
    ∧ (process_event emptyProcessorState negTsEvent).stats.processing_errors = 0
    ∧ negTsEvent.timestamp < 0 := by
  decide

/-- C2 (amended): `StreamProcessor.process_event` performs no validation and
always inserts the event into the history (even with a negative timestamp);
only the HTTP boundary model `TelemetryIn` rejects events, and it does so
exactly for a negative `ts` or an out-of-bounds `device_id`/`status` length
— it places no NaN check on the float metrics. -/
theorem claim_C2_amended :
    (∀ (s : StreamProcessor) (e : TelemetryEvent),
        (process_event s e).buffer = s.buffer.add e)
    ∧ (∀ (d : String) (ts : ℤ) (st : String),
        telemetryInValid d ts st = true ↔
          (1 ≤ d.length ∧ d.length ≤ 64 ∧ 0 ≤ ts
            ∧ 1 ≤ st.length ∧ st.length ≤ 32)) := by
  constructor
  · intro s e
    by_cases h : (runChain e (s.buffer.add e) s.processors).2 = true <;>
      simp [process_event, h]
  · intro d ts st
    rw [telemetryInValid, decide_eq_true_iff]

/-- C3 counterexample: with a chain of a raising detector followed by an
always-alerting detector, processing one event leaves no alert (the second
detector never executed), leaves `events_processed` at 0 (the event is not
counted as processed), and bumps `processing_errors` — there is no per-
detector isolation and no degraded verdict. -/
theorem claim_C3_counterexample :
    (process_event c3State c3Event).alerts = []
    ∧ (process_event c3State c3Event).stats.events_processed = 0
    ∧ (process_event c3State c3Event).stats.processing_errors = 1 := by
  decide

/-- C3 (amended): a raising detector increments `processing_errors` by
exactly 1, but the failure is not isolated to that detector: the chain
outcome is unaffected by whatever detectors follow the raising one (they
never execute), the event is not counted in `events_processed`, and no
degraded flag exists; the event does remain appended to the history. -/
theorem claim_C3_amended :
    (∀ (e : TelemetryEvent) (buf : StreamBuffer) (msg : String) (p : Processor)
        (ps qs qs' : List Processor), p e buf = Except.error msg →
        runChain e buf (ps ++ p :: qs) = runChain e buf (ps ++ p :: qs'))
    ∧ (∀ (s : StreamProcessor) (e : TelemetryEvent),
        (runChain e (s.buffer.add e) s.processors).2 = false →
        (process_event s e).stats.processing_errors = s.stats.processing_errors + 1
        ∧ (process_event s e).stats.events_processed = s.stats.events_processed
        ∧ (process_event s e).buffer = s.buffer.add e) := by
  constructor
  · intro e buf msg p ps qs qs' hp
    induction ps with
    | nil => simp [runChain, hp]
    | cons a ps ih =>
      cases ha : a e buf with
      | error m => simp [runChain, ha]
      | ok r =>
        cases r with
        | none => simpa [runChain, ha] using ih
        | some pr => simp [runChain, ha, ih]
  · intro s e h
    refine ⟨?_, ?_, ?_⟩ <;> simp [process_event, h]

/-- Witness for the amended C3 at a concrete chain: dropping the detector
after the raising one does not change the chain outcome, and the error
counter moves from 0 to 1. -/
theorem claim_C3_amended_witness :
    runChain c3Event (c3State.buffer.add c3Event)
        ([] ++ failingDetector :: [constAlertDetector])
      = runChain c3Event (c3State.buffer.add c3Event) ([] ++ failingDetector :: [])
    ∧ (process_event c3State c3Event).stats.processing_errors
        = c3State.stats.processing_errors + 1 := by
  constructor
  · exact claim_C3_amended.1 c3Event (c3State.buffer.add c3Event) "boom"
      failingDetector [] [constAlertDetector] [] rfl
  · exact (claim_C3_amended.2 c3State c3Event (by rfl)).1

/-- First of two identical TEMPERATURE_HIGH breach events, 10 seconds
apart. -/
def highTempEvent1 : TelemetryEvent := ⟨"dev1", 0, 130, 200, "OK"⟩

/-- Second of two identical TEMPERATURE_HIGH breach events, 10 seconds
apart. -/
def highTempEvent2 : TelemetryEvent := ⟨"dev1", 10, 130, 200, "OK"⟩

/-- A processor state running only the threshold monitor. -/
def thresholdState : StreamProcessor :=
  ⟨⟨[], 10000⟩, [pureProc threshold_monitor_processor], [], ⟨0, 0, 0⟩⟩

/-- C1 counterexample: two TEMPERATURE_HIGH breaches of the same device 10
seconds apart (well inside a 60-second bucket) are BOTH dispatched — the
alert list receives two entries of the same (device_id, alert_type) pair and
`alerts_generated` reaches 2; nothing is dropped and no suppressed-duplicate
count exists anywhere in the state. -/
theorem claim_C1_counterexample :
    ((process_event (process_event thresholdState highTempEvent1)
        highTempEvent2).alerts.map (fun a => (a.device_id, a.alert_type)))
      = [("dev1", "TEMPERATURE_HIGH"), ("dev1", "TEMPERATURE_HIGH")]
    ∧ (process_event (process_event thresholdState highTempEvent1)
        highTempEvent2).stats.alerts_generated = 2
    ∧ highTempEvent2.timestamp - highTempEvent1.timestamp = 10 := by
  refine ⟨by decide, by decide, ?_⟩
  norm_num [highTempEvent1, highTempEvent2]

/-- C1 (amended): no deduplication is performed anywhere: every threshold
breach dispatches an alert — processing an event whose thresholds breach
appends exactly one new alert record and bumps `alerts_generated` by one,
regardless of the existing alerts (in particular, of an identical alert
dispatched moments earlier within the same minute), and no
suppressed-duplicate counter exists. -/
theorem claim_C1_amended (s : StreamProcessor) (e : TelemetryEvent)
    (r : ProcResult)
    (hp : s.processors = [pureProc threshold_monitor_processor])
    (hr : threshold_monitor_processor e (s.buffer.add e) = some r) :
    (process_event s e).alerts = s.alerts ++ [⟨e.device_id, r.alert, r, e⟩]
    ∧ (process_event s e).stats.alerts_generated
        = s.stats.alerts_generated + 1 := by
  have hchain : runChain e (s.buffer.add e) s.processors
      = ([⟨e.device_id, r.alert, r, e⟩], true) := by
    rw [hp]
    simp [runChain, pureProc, hr]
  constructor <;> simp [process_event, hchain]

/-- Witness for the amended C1: the first breach event appends exactly one
TEMPERATURE_HIGH alert and bumps the counter from 0 to 1. -/
theorem claim_C1_amended_witness :
    (process_event thresholdState highTempEvent1).alerts
      = thresholdState.alerts
        ++ [⟨highTempEvent1.device_id, "TEMPERATURE_HIGH",
             ⟨"TEMPERATURE_HIGH", "CRITICAL"⟩, highTempEvent1⟩]
    ∧ (process_event thresholdState highTempEvent1).stats.alerts_generated
        = thresholdState.stats.alerts_generated + 1 :=
  claim_C1_amended thresholdState highTempEvent1
    ⟨"TEMPERATURE_HIGH", "CRITICAL"⟩ rfl (by decide)

/-- An empty buffer (any device's window is below the minimum). -/
def smallBuffer : StreamBuffer := ⟨[], 10000⟩

/-- An extreme event used against an empty history. -/
def c4Event : TelemetryEvent := ⟨"dev1", 0, 1000, 1000, "OK"⟩

/-- C4 counterexample: with an empty device history (below the minimum
window of 10), `anomaly_detector_processor` returns `None` — no verdict
object at all is produced, in particular none carrying
`method = insufficient_data` and `is_anomaly = false`. -/
theorem claim_C4_counterexample :
    anomaly_detector_processor c4Event smallBuffer = none := by
  decide

/-- C4 (amended): whenever the device window holds fewer than 10 points the
statistical detector returns `None` — it produces no verdict object, and in
particular it never reports an anomaly below the minimum window. -/
theorem claim_C4_amended (e : TelemetryEvent) (buf : StreamBuffer)
    (h : (buf.get_by_device e.device_id 50).length < 10) :
    anomaly_detector_processor e buf = none := by
  unfold anomaly_detector_processor
  rw [if_pos h]

/-- Witness for the amended C4 at the empty buffer. -/
theorem claim_C4_amended_witness :
    (smallBuffer.get_by_device c4Event.device_id 50).length < 10
    ∧ anomaly_detector_processor c4Event smallBuffer = none :=
  ⟨by decide, claim_C4_amended c4Event smallBuffer (by decide)⟩

/-- C9: the threshold monitor returns at most one alert (it returns an
optional single result): a temperature-high breach always wins, a
temperature-low breach wins over any pressure breach, and when both a
temperature and a pressure threshold are breached the returned alert is the
temperature one — the pressure breach is never reported. -/
theorem claim_C9_threshold_order (e : TelemetryEvent) (b : StreamBuffer) :
    (e.temperature > 120 →
      threshold_monitor_processor e b = some ⟨"TEMPERATURE_HIGH", "CRITICAL"⟩)
    ∧ (e.temperature < 40 →
      threshold_monitor_processor e b = some ⟨"TEMPERATURE_LOW", "HIGH"⟩)
    ∧ ((e.temperature > 120 ∨ e.temperature < 40) →
        (e.pressure > 300 ∨ e.pressure < 100) →
        ∃ r, threshold_monitor_processor e b = some r
          ∧ (r.alert = "TEMPERATURE_HIGH" ∨ r.alert = "TEMPERATURE_LOW")
          ∧ r.alert ≠ "PRESSURE_HIGH" ∧ r.alert ≠ "PRESSURE_LOW") := by
  refine ⟨?_, ?_, ?_⟩
  · intro h
    simp [threshold_monitor_processor, if_pos h]
  · intro h
    have h' : ¬ (e.temperature > 120) := by linarith
    simp [threshold_monitor_processor, if_neg h', if_pos h]
  · intro ht _hp
    rcases ht with h | h
    · refine ⟨⟨"TEMPERATURE_HIGH", "CRITICAL"⟩, ?_, Or.inl rfl, by decide, by decide⟩
      simp [threshold_monitor_processor, if_pos h]
    · have h' : ¬ (e.temperature > 120) := by linarith
      refine ⟨⟨"TEMPERATURE_LOW", "HIGH"⟩, ?_, Or.inr rfl, by decide, by decide⟩
      simp [threshold_monitor_processor, if_neg h', if_pos h]

/-- Witness for C9: an event breaching both the temperature-high and the
pressure-low thresholds reports only the temperature alert. -/
theorem claim_C9_witness :
    ((130 : ℚ) > 120)
    ∧ threshold_monitor_processor ⟨"dev1", 0, 130, 50, "OK"⟩ smallBuffer
        = some ⟨"TEMPERATURE_HIGH", "CRITICAL"⟩ :=
  ⟨by norm_num,
    (claim_C9_threshold_order ⟨"dev1", 0, 130, 50, "OK"⟩ smallBuffer).1
      (by norm_num)⟩

/-- C10: the rule-based detector returns a score in [0, 1]; it reports an
anomaly exactly when the accumulated rule score reaches 0.5 (equivalently,
when the returned clamped score does); and since each single rule
contributes at most 0.4, no single rule violation alone ever yields
`is_anomaly = true` — at least two rules must fire. -/
theorem claim_C10_rule_score (cfg : AnomalyConfig) (t p : ℚ) :
    (0 ≤ (detect_anomaly_rule_based cfg t p).2)
    ∧ ((detect_anomaly_rule_based cfg t p).2 ≤ 1)
    ∧ ((detect_anomaly_rule_based cfg t p).1 = true
        ↔ 5/10 ≤ (detect_anomaly_rule_based cfg t p).2)
    ∧ (ruleCount cfg t p ≤ 1 → (detect_anomaly_rule_based cfg t p).1 = false) := by
  unfold detect_anomaly_rule_based ruleCount
  split_ifs <;>
    simp only [decide_eq_true_eq, le_min_iff, min_le_iff] <;>
    norm_num

/-- Witness for C10: with the default configuration, a lone
temperature-threshold breach (one rule, score 0.4) is not an anomaly. -/
theorem claim_C10_witness :
    ruleCount {} 100 200 ≤ 1
    ∧ (detect_anomaly_rule_based {} 100 200).1 = false :=
  ⟨by decide, (claim_C10_rule_score {} 100 200).2.2.2 (by decide)⟩

/-- C6: if the device window the detector computes over (its last 50 events
for the device, at least the minimum 10) has temperature mean 80 and
population variance 4 (standard deviation 2), then a reading of 95 has a
temperature z-score exceeding the threshold 3 and the statistical detector
returns the ANOMALY_DETECTED result for the event. -/
theorem claim_C6_statistical_anomaly (e : TelemetryEvent) (buf : StreamBuffer)
    (hlen : 10 ≤ (buf.get_by_device e.device_id 50).length)
    (hmean : listMean ((buf.get_by_device e.device_id 50).map
      (fun x => x.temperature)) = 80)
    (hvar : popVar ((buf.get_by_device e.device_id 50).map
      (fun x => x.temperature)) = 4)
    (htemp : e.temperature = 95) :
    zExceeds e.temperature 80 4 3 = true
    ∧ ∃ r, anomaly_detector_processor e buf = some r
        ∧ r.alert = "ANOMALY_DETECTED" := by
  have hz : zExceeds (95 : ℚ) 80 4 3 = true := by norm_num [zExceeds, eps]
  constructor
  · rw [htemp]
    exact hz
  · unfold anomaly_detector_processor
    rw [if_neg (by omega)]
    simp only [hmean, hvar, htemp, hz, Bool.true_or, if_true]
    exact ⟨_, rfl, rfl⟩

/-- A 20-reading window of one device with temperature mean 80 and
population standard deviation 2 (ten readings at 78 and ten at 82). -/
def c6Buffer : StreamBuffer :=
  ⟨List.replicate 10 ⟨"d", 0, 78, 200, "OK"⟩
    ++ List.replicate 10 ⟨"d", 0, 82, 200, "OK"⟩, 10000⟩

/-- A new reading of 95 for the same device. -/
def c6Event : TelemetryEvent := ⟨"d", 20, 95, 200, "OK"⟩

/-- Witness for C6: the concrete 20-reading window with mean 80 and variance
4, against the new reading of 95, produces the ANOMALY_DETECTED result. -/
theorem claim_C6_witness :
    10 ≤ (c6Buffer.get_by_device c6Event.device_id 50).length
    ∧ listMean ((c6Buffer.get_by_device c6Event.device_id 50).map
        (fun x => x.temperature)) = 80
    ∧ popVar ((c6Buffer.get_by_device c6Event.device_id 50).map
        (fun x => x.temperature)) = 4
    ∧ ∃ r, anomaly_detector_processor c6Event c6Buffer = some r
        ∧ r.alert = "ANOMALY_DETECTED" :=
  ⟨by decide,
   by norm_num [listMean, c6Buffer, c6Event, StreamBuffer.get_by_device,
     List.replicate],
   by norm_num [popVar, listMean, c6Buffer, c6Event,
     StreamBuffer.get_by_device, List.replicate],
   (claim_C6_statistical_anomaly c6Event c6Buffer (by decide)
     (by norm_num [listMean, c6Buffer, c6Event, StreamBuffer.get_by_device,
       List.replicate])
     (by norm_num [popVar, listMean, c6Buffer, c6Event,
       StreamBuffer.get_by_device, List.replicate])
     rfl).2⟩

/-- C7: the health score is the average of the two per-metric stability
scores minus the penalty min(0.5, alert_count × 0.1), clamped to [0, 1]
(refinement of the code's `_calculate_health_score` against the claim's
formula); the status mapping is HEALTHY iff score > 0.7, DEGRADED iff
0.4 < score ≤ 0.7, CRITICAL otherwise, and NO_DATA when the device window is
empty; and a device with zero variance in both metrics (standard deviations
0) and zero recent alerts scores exactly 1 with status HEALTHY. -/
theorem claim_C7_device_health :
    (∀ (ts ps : ℚ) (a : ℕ),
      calculate_health_score ts ps a = specHealthScore ts ps a)
    ∧ (∀ h : ℚ, healthStatusOf h = "HEALTHY" ↔ 7/10 < h)
    ∧ (∀ h : ℚ, healthStatusOf h = "DEGRADED" ↔ (4/10 < h ∧ h ≤ 7/10))
    ∧ (∀ h : ℚ, healthStatusOf h = "CRITICAL" ↔ h ≤ 4/10)
    ∧ (∀ (buf : StreamBuffer) (d : String) (ts ps : ℚ) (a : ℕ),
        buf.get_by_device d 100 = [] →
        get_device_health buf d ts ps a = ⟨"NO_DATA", 0⟩)
    ∧ (∀ (buf : StreamBuffer) (d : String) (ts ps : ℚ),
        buf.get_by_device d 100 ≠ [] →
        0 ≤ ts →
        ts ^ 2 = sampleVar ((buf.get_by_device d 100).map
          (fun x => x.temperature)) →
        0 ≤ ps →
        ps ^ 2 = sampleVar ((buf.get_by_device d 100).map
          (fun x => x.pressure)) →
        sampleVar ((buf.get_by_device d 100).map (fun x => x.temperature)) = 0 →
        sampleVar ((buf.get_by_device d 100).map (fun x => x.pressure)) = 0 →
        get_device_health buf d ts ps 0 = ⟨"HEALTHY", 1⟩) := by
  refine ⟨?_, ?_, ?_, ?_, ?_, ?_⟩
  · intro ts ps a
    rfl
  · intro h
    unfold healthStatusOf
    split_ifs with h1 h2 <;> simp_all
  · intro h
    unfold healthStatusOf
    split_ifs with h1 h2 <;> simp_all <;> linarith
  · intro h
    unfold healthStatusOf
    split_ifs with h1 h2 <;> simp_all <;> linarith
  · intro buf d ts ps a h
    simp [get_device_health, h]
  · intro buf d ts ps hne hts hts2 hps hps2 hvt hvp
    have h0t : ts = 0 := by
      have : ts ^ 2 = 0 := by rw [hts2, hvt]
      exact pow_eq_zero_iff (two_ne_zero) |>.mp this
    have h0p : ps = 0 := by
      have : ps ^ 2 = 0 := by rw [hps2, hvp]
      exact pow_eq_zero_iff (two_ne_zero) |>.mp this
    subst h0t h0p
    have hscore : calculate_health_score 0 0 0 = 1 := by
      norm_num [calculate_health_score]
    simp [get_device_health, hne, hscore, healthStatusOf]
    norm_num

/-- A two-event window with zero variance in both metrics. -/
def c7Buffer : StreamBuffer :=
  ⟨[⟨"d", 0, 50, 200, "OK"⟩, ⟨"d", 1, 50, 200, "OK"⟩], 10000⟩

/-- Witness for C7 at a concrete device: a two-reading window with constant
metrics and zero recent alerts yields score 1 and status HEALTHY. -/
theorem claim_C7_witness :
    c7Buffer.get_by_device "d" 100 ≠ []
    ∧ sampleVar ((c7Buffer.get_by_device "d" 100).map
        (fun x => x.temperature)) = 0
    ∧ get_device_health c7Buffer "d" 0 0 0 = ⟨"HEALTHY", 1⟩ :=
  ⟨by decide,
   by norm_num [sampleVar, listMean, c7Buffer, StreamBuffer.get_by_device],
   claim_C7_device_health.2.2.2.2.2 c7Buffer "d" 0 0 (by decide)
     le_rfl
     (by norm_num [sampleVar, listMean, c7Buffer, StreamBuffer.get_by_device])
     le_rfl
     (by norm_num [sampleVar, listMean, c7Buffer, StreamBuffer.get_by_device])
     (by norm_num [sampleVar, listMean, c7Buffer, StreamBuffer.get_by_device])
     (by norm_num [sampleVar, listMean, c7Buffer, StreamBuffer.get_by_device])⟩
